import Mathlib

/-!
Verification development for the swap protocol core of the xmr-btc-swap
repository: a shallow embedding of the persisted/runtime Alice swap states
(src/swap/src/database/alice.rs), the transfer_proof and encrypted_signature
wire protocols (src/swap/src/network/*.rs), and the ASB configuration
subsystem (src/swap/src/asb/config.rs), together with theorems settling the
specification claims about them.
-/

set_option maxHeartbeats 1000000

/-! ## Opaque payload scalars

The concrete cryptographic payload types live outside the excerpted sources;
they enter the claims only as inert data carried by variants, so they are
embedded as wrapped naturals (injective carriers with decidable equality). -/

/-- `monero_rpc::wallet::BlockHeight`: the Monero wallet restore blockheight
carried by post-XMR-lock persisted states. -/
structure BlockHeight where
  height : Nat
deriving DecidableEq, Repr

/-- Modelled from the spec: `crate::bitcoin::EncryptedSignature` is Bob's
adaptor signature on Alice's BTC redeem transaction; its definition is
repository code outside the excerpt, so it is an opaque scalar here. -/
structure EncryptedSignature where
  sig : Nat
deriving DecidableEq, Repr

/-- Modelled from the spec: `monero::PrivateKey`, the recovered Monero spend
key; opaque scalar. -/
structure PrivateKey where
  scalar : Nat
deriving DecidableEq, Repr

/-- Modelled from the spec: `monero::TransferProof`, the proof that a Monero
transaction was sent to a specific address for a specific amount; opaque. -/
structure TransferProof where
  proof : Nat
deriving DecidableEq, Repr

/-- `libp2p::PeerId`: opaque peer identifier. -/
structure PeerId where
  id : Nat
deriving DecidableEq, Repr

/-- `libp2p::request_response::RequestId`: opaque request identifier. -/
structure RequestId where
  id : Nat
deriving DecidableEq, Repr

/-- Modelled from the spec: `alice::State3`, the immutable shared swap
parameters produced by setup (participant keys, amounts, the cancel and
punish timelocks, the pre-signed cancel/refund/punish transactions, the
Monero lock parameters, swap id and counterparty peer id).  Its definition
is repository code outside the excerpt; fields are opaque scalars. -/
structure State3 where
  alice_btc_pubkey : Nat
  bob_btc_pubkey : Nat
  alice_xmr_pubkey : Nat
  bob_xmr_pubkey : Nat
  btc_amount : Nat
  xmr_amount : Nat
  cancel_timelock : Nat
  punish_timelock : Nat
  presigned_cancel_tx : Nat
  presigned_refund_tx : Nat
  presigned_punish_tx : Nat
  xmr_lock_params : Nat
  swap_id : Nat
  counterparty_peer : Nat
deriving DecidableEq, Repr

/-- A concrete `State3` value for closed instances of theorems. -/
def defaultState3 : State3 :=
  ⟨1, 2, 3, 4, 5, 6, 10, 20, 7, 8, 9, 11, 12, 13⟩

/-! ## Persisted Alice database states (`src/swap/src/database/alice.rs`) -/

/-- `AliceEndState` (database/alice.rs lines 50-56): the four payload-free
terminal tags stored under `Alice::Done`. -/
inductive AliceEndState where
  | SafelyAborted
  | BtcRedeemed
  | XmrRefunded
  | BtcPunished
deriving DecidableEq, Repr

/-- The persisted `Alice` enum (database/alice.rs lines 14-48), field for
field: every non-`Done` variant holds a `State3`; `EncSigLearned`,
`CancelTimelockExpired`, `BtcCancelled`, `BtcPunishable` and `BtcRefunded`
also hold the Monero wallet restore blockheight; `EncSigLearned` holds the
received encrypted signature and `BtcRefunded` the recovered spend key. -/
inductive Alice where
  | WatchingForTxLockInMempool (state3 : State3)
  | WaitingForTxLockConfirmations (state3 : State3)
  | WaitingForEncSig (state3 : State3)
  | EncSigLearned (monero_wallet_restore_blockheight : BlockHeight)
      (encrypted_signature : EncryptedSignature) (state3 : State3)
  | CancelTimelockExpired (monero_wallet_restore_blockheight : BlockHeight)
      (state3 : State3)
  | BtcCancelled (monero_wallet_restore_blockheight : BlockHeight)
      (state3 : State3)
  | BtcPunishable (monero_wallet_restore_blockheight : BlockHeight)
      (state3 : State3)
  | BtcRefunded (monero_wallet_restore_blockheight : BlockHeight)
      (state3 : State3) (spend_key : PrivateKey)
  | Done (end_state : AliceEndState)
deriving DecidableEq, Repr

namespace Alice

/-- The `State3` payload of a persisted variant, when present (field
projection out of the enum of database/alice.rs). -/
def state3? : Alice → Option State3
  | .WatchingForTxLockInMempool s => some s
  | .WaitingForTxLockConfirmations s => some s
  | .WaitingForEncSig s => some s
  | .EncSigLearned _ _ s => some s
  | .CancelTimelockExpired _ s => some s
  | .BtcCancelled _ s => some s
  | .BtcPunishable _ s => some s
  | .BtcRefunded _ s _ => some s
  | .Done _ => none

/-- The Monero wallet restore blockheight of a persisted variant, when the
variant has that field (field projection out of the enum). -/
def restoreBlockheight? : Alice → Option BlockHeight
  | .WatchingForTxLockInMempool _ => none
  | .WaitingForTxLockConfirmations _ => none
  | .WaitingForEncSig _ => none
  | .EncSigLearned h _ _ => some h
  | .CancelTimelockExpired h _ => some h
  | .BtcCancelled h _ => some h
  | .BtcPunishable h _ => some h
  | .BtcRefunded h _ _ => some h
  | .Done _ => none

/-- The recovered Monero spend key, carried only by `BtcRefunded`. -/
def spendKey? : Alice → Option PrivateKey
  | .BtcRefunded _ _ k => some k
  | _ => none

/-- The received encrypted signature, carried only by `EncSigLearned`. -/
def encsig? : Alice → Option EncryptedSignature
  | .EncSigLearned _ e _ => some e
  | _ => none

end Alice

/-! ## Runtime Alice states (`crate::protocol::alice::AliceState`)

The runtime enum is defined outside the excerpt, but both `From`
implementations in database/alice.rs (lines 58-121 and 123-187) exhaustively
match and construct every variant with its fields, which determines the
shape embedded here.  Runtime payloads are boxed in the source; boxing is
representationally transparent. -/

inductive AliceState where
  | WatchingForTxLockInMempool (state3 : State3)
  | WaitingForTxLockConfirmations (state3 : State3)
  | WaitingForEncSig (state3 : State3)
  | EncSigLearned (monero_wallet_restore_blockheight : BlockHeight)
      (state3 : State3) (encrypted_signature : EncryptedSignature)
  | CancelTimelockExpired (monero_wallet_restore_blockheight : BlockHeight)
      (state3 : State3)
  | BtcCancelled (monero_wallet_restore_blockheight : BlockHeight)
      (state3 : State3)
  | BtcPunishable (monero_wallet_restore_blockheight : BlockHeight)
      (state3 : State3)
  | BtcRefunded (monero_wallet_restore_blockheight : BlockHeight)
      (spend_key : PrivateKey) (state3 : State3)
  | BtcRedeemed
  | XmrRefunded
  | BtcPunished
  | SafelyAborted
deriving DecidableEq, Repr

/-- `impl From<&AliceState> for Alice` (database/alice.rs lines 58-121): the
runtime-to-persisted projection written before each database write. -/
def Alice.fromState : AliceState → Alice
  | .WatchingForTxLockInMempool s => .WatchingForTxLockInMempool s
  | .WaitingForTxLockConfirmations s => .WaitingForTxLockConfirmations s
  | .WaitingForEncSig s => .WaitingForEncSig s
  | .EncSigLearned h s e => .EncSigLearned h e s
  | .BtcRedeemed => .Done .BtcRedeemed
  | .BtcCancelled h s => .BtcCancelled h s
  | .BtcRefunded h k s => .BtcRefunded h s k
  | .BtcPunishable h s => .BtcPunishable h s
  | .XmrRefunded => .Done .XmrRefunded
  | .CancelTimelockExpired h s => .CancelTimelockExpired h s
  | .BtcPunished => .Done .BtcPunished
  | .SafelyAborted => .Done .SafelyAborted

/-- `impl From<Alice> for AliceState` (database/alice.rs lines 123-187): the
persisted-to-runtime conversion applied when a swap is resumed.  Note the
second arm: the source maps the persisted `WaitingForTxLockConfirmations`
variant to the runtime `WatchingForTxLockInMempool` state. -/
def AliceState.fromDb : Alice → AliceState
  | .WatchingForTxLockInMempool s => .WatchingForTxLockInMempool s
  | .WaitingForTxLockConfirmations s => .WatchingForTxLockInMempool s
  | .WaitingForEncSig s => .WaitingForEncSig s
  | .EncSigLearned h e s => .EncSigLearned h s e
  | .CancelTimelockExpired h s => .CancelTimelockExpired h s
  | .BtcCancelled h s => .BtcCancelled h s
  | .BtcPunishable h s => .BtcPunishable h s
  | .BtcRefunded h s k => .BtcRefunded h k s
  | .Done e =>
    match e with
    | .SafelyAborted => .SafelyAborted
    | .BtcRedeemed => .BtcRedeemed
    | .XmrRefunded => .XmrRefunded
    | .BtcPunished => .BtcPunished

/-! ## Display (`impl Display for Alice`, database/alice.rs lines 189-205) -/

/-- `strum::Display` derived on `AliceEndState`: renders the variant name. -/
def AliceEndState.display : AliceEndState → String
  | .SafelyAborted => "SafelyAborted"
  | .BtcRedeemed => "BtcRedeemed"
  | .XmrRefunded => "XmrRefunded"
  | .BtcPunished => "BtcPunished"

/-- `impl Display for Alice`, arm for arm: every non-`Done` arm discards its
payload with `..`; `Done` renders its end-state tag. -/
def Alice.display : Alice → String
  | .WatchingForTxLockInMempool _ => "Watching for TxLock in mempool"
  | .WaitingForTxLockConfirmations _ => "Waiting for TxLock confirmations"
  | .WaitingForEncSig _ => "Waiting Bob to send EncSig"
  | .CancelTimelockExpired _ _ => "Cancel timelock is expired"
  | .BtcCancelled _ _ => "Bitcoin cancel transaction published"
  | .BtcPunishable _ _ => "Bitcoin punishable"
  | .BtcRefunded _ _ _ => "Monero refundable"
  | .Done e => "Done: " ++ e.display
  | .EncSigLearned _ _ _ => "Encrypted signature learned"

/-- The discriminant of a persisted variant: the variant tag, together with
the end-state tag for `Done` (two `Done` values are the same variant only
with the same end state). -/
inductive AliceTag where
  | WatchingForTxLockInMempool
  | WaitingForTxLockConfirmations
  | WaitingForEncSig
  | EncSigLearned
  | CancelTimelockExpired
  | BtcCancelled
  | BtcPunishable
  | BtcRefunded
  | Done (end_state : AliceEndState)
deriving DecidableEq, Repr

/-- The tag of a persisted variant. -/
def Alice.tag : Alice → AliceTag
  | .WatchingForTxLockInMempool _ => .WatchingForTxLockInMempool
  | .WaitingForTxLockConfirmations _ => .WaitingForTxLockConfirmations
  | .WaitingForEncSig _ => .WaitingForEncSig
  | .EncSigLearned _ _ _ => .EncSigLearned
  | .CancelTimelockExpired _ _ => .CancelTimelockExpired
  | .BtcCancelled _ _ => .BtcCancelled
  | .BtcPunishable _ _ => .BtcPunishable
  | .BtcRefunded _ _ _ => .BtcRefunded
  | .Done e => .Done e

/-! ## Serialization of the persisted Alice record (claim C2)

The enum derives `Serialize`/`Deserialize` (serde, externally tagged into a
self-describing value tree: a struct variant becomes a one-entry map from
the variant name to the map of its fields, the newtype variant `Done`
becomes a one-entry map from `Done` to the end-state value, and the unit
variants of `AliceEndState` become their names).  Payload codecs
(`State3`, `BlockHeight`, `EncryptedSignature`, the `monero_private_key`
serde module) are repository code outside the excerpt; modelled from the
spec as injective encodings into the value tree.  The deserializers accept
the canonical serialized form, which is what the roundtrip law quantifies
over. -/

/-- A self-describing serialized value tree (the semantic content of the
CBOR/JSON encoding; the spec fixes semantics, not the byte-level format). -/
inductive SerdeValue where
  | num (n : Nat)
  | str (s : String)
  | arr (elems : List SerdeValue)
  | obj (fields : List (String × SerdeValue))

/-- Modelled from the spec: serialization of the opaque `State3` record as
the map of its fields. -/
def serializeState3 (s : State3) : SerdeValue :=
  .obj [("alice_btc_pubkey", .num s.alice_btc_pubkey),
        ("bob_btc_pubkey", .num s.bob_btc_pubkey),
        ("alice_xmr_pubkey", .num s.alice_xmr_pubkey),
        ("bob_xmr_pubkey", .num s.bob_xmr_pubkey),
        ("btc_amount", .num s.btc_amount),
        ("xmr_amount", .num s.xmr_amount),
        ("cancel_timelock", .num s.cancel_timelock),
        ("punish_timelock", .num s.punish_timelock),
        ("presigned_cancel_tx", .num s.presigned_cancel_tx),
        ("presigned_refund_tx", .num s.presigned_refund_tx),
        ("presigned_punish_tx", .num s.presigned_punish_tx),
        ("xmr_lock_params", .num s.xmr_lock_params),
        ("swap_id", .num s.swap_id),
        ("counterparty_peer", .num s.counterparty_peer)]

/-- Modelled from the spec: deserialization of `State3` (canonical form). -/
def deserializeState3 : SerdeValue → Option State3
  | .obj [("alice_btc_pubkey", .num a1), ("bob_btc_pubkey", .num a2),
          ("alice_xmr_pubkey", .num a3), ("bob_xmr_pubkey", .num a4),
          ("btc_amount", .num a5), ("xmr_amount", .num a6),
          ("cancel_timelock", .num a7), ("punish_timelock", .num a8),
          ("presigned_cancel_tx", .num a9), ("presigned_refund_tx", .num a10),
          ("presigned_punish_tx", .num a11), ("xmr_lock_params", .num a12),
          ("swap_id", .num a13), ("counterparty_peer", .num a14)] =>
    some ⟨a1, a2, a3, a4, a5, a6, a7, a8, a9, a10, a11, a12, a13, a14⟩
  | _ => none

/-- `monero_rpc::wallet::BlockHeight` serializes as its height field. -/
def serializeBlockHeight (h : BlockHeight) : SerdeValue :=
  .obj [("height", .num h.height)]

/-- Deserialization of `BlockHeight` (canonical form). -/
def deserializeBlockHeight : SerdeValue → Option BlockHeight
  | .obj [("height", .num n)] => some ⟨n⟩
  | _ => none

/-- Modelled from the spec: the opaque encrypted signature serializes
injectively. -/
def serializeEncSig (e : EncryptedSignature) : SerdeValue := .num e.sig

/-- Modelled from the spec: deserialization of the encrypted signature. -/
def deserializeEncSig : SerdeValue → Option EncryptedSignature
  | .num n => some ⟨n⟩
  | _ => none

/-- Modelled from the spec: the `monero_private_key` serde module encodes
the spend key injectively. -/
def serializePrivateKey (k : PrivateKey) : SerdeValue := .num k.scalar

/-- Modelled from the spec: deserialization via `monero_private_key`. -/
def deserializePrivateKey : SerdeValue → Option PrivateKey
  | .num n => some ⟨n⟩
  | _ => none

/-- Serde serialization of the unit-variant enum `AliceEndState`: the
variant name. -/
def serializeEndState (e : AliceEndState) : SerdeValue :=
  .str e.display

/-- Serde deserialization of `AliceEndState`; an unknown variant name fails
the load rather than being silently coerced. -/
def deserializeEndState : SerdeValue → Option AliceEndState
  | .str "SafelyAborted" => some .SafelyAborted
  | .str "BtcRedeemed" => some .BtcRedeemed
  | .str "XmrRefunded" => some .XmrRefunded
  | .str "BtcPunished" => some .BtcPunished
  | _ => none

/-- Serde serialization of the persisted `Alice` enum, externally tagged,
with fields in declaration order (database/alice.rs lines 14-48). -/
def serializeAlice : Alice → SerdeValue
  | .WatchingForTxLockInMempool s =>
    .obj [("WatchingForTxLockInMempool", .obj [("state3", serializeState3 s)])]
  | .WaitingForTxLockConfirmations s =>
    .obj [("WaitingForTxLockConfirmations", .obj [("state3", serializeState3 s)])]
  | .WaitingForEncSig s =>
    .obj [("WaitingForEncSig", .obj [("state3", serializeState3 s)])]
  | .EncSigLearned h e s =>
    .obj [("EncSigLearned",
      .obj [("monero_wallet_restore_blockheight", serializeBlockHeight h),
            ("encrypted_signature", serializeEncSig e),
            ("state3", serializeState3 s)])]
  | .CancelTimelockExpired h s =>
    .obj [("CancelTimelockExpired",
      .obj [("monero_wallet_restore_blockheight", serializeBlockHeight h),
            ("state3", serializeState3 s)])]
  | .BtcCancelled h s =>
    .obj [("BtcCancelled",
      .obj [("monero_wallet_restore_blockheight", serializeBlockHeight h),
            ("state3", serializeState3 s)])]
  | .BtcPunishable h s =>
    .obj [("BtcPunishable",
      .obj [("monero_wallet_restore_blockheight", serializeBlockHeight h),
            ("state3", serializeState3 s)])]
  | .BtcRefunded h s k =>
    .obj [("BtcRefunded",
      .obj [("monero_wallet_restore_blockheight", serializeBlockHeight h),
            ("state3", serializeState3 s),
            ("spend_key", serializePrivateKey k)])]
  | .Done e => .obj [("Done", serializeEndState e)]

/-- Serde deserialization of the persisted `Alice` enum (canonical form);
an unknown variant tag fails the load. -/
def deserializeAlice : SerdeValue → Option Alice
  | .obj [("WatchingForTxLockInMempool", .obj [("state3", sv)])] =>
    (deserializeState3 sv).map .WatchingForTxLockInMempool
  | .obj [("WaitingForTxLockConfirmations", .obj [("state3", sv)])] =>
    (deserializeState3 sv).map .WaitingForTxLockConfirmations
  | .obj [("WaitingForEncSig", .obj [("state3", sv)])] =>
    (deserializeState3 sv).map .WaitingForEncSig
  | .obj [("EncSigLearned",
      .obj [("monero_wallet_restore_blockheight", hv),
            ("encrypted_signature", ev), ("state3", sv)])] => do
    let h ← deserializeBlockHeight hv
    let e ← deserializeEncSig ev
    let s ← deserializeState3 sv
    some (.EncSigLearned h e s)
  | .obj [("CancelTimelockExpired",
      .obj [("monero_wallet_restore_blockheight", hv), ("state3", sv)])] => do
    let h ← deserializeBlockHeight hv
    let s ← deserializeState3 sv
    some (.CancelTimelockExpired h s)
  | .obj [("BtcCancelled",
      .obj [("monero_wallet_restore_blockheight", hv), ("state3", sv)])] => do
    let h ← deserializeBlockHeight hv
    let s ← deserializeState3 sv
    some (.BtcCancelled h s)
  | .obj [("BtcPunishable",
      .obj [("monero_wallet_restore_blockheight", hv), ("state3", sv)])] => do
    let h ← deserializeBlockHeight hv
    let s ← deserializeState3 sv
    some (.BtcPunishable h s)
  | .obj [("BtcRefunded",
      .obj [("monero_wallet_restore_blockheight", hv), ("state3", sv),
            ("spend_key", kv)])] => do
    let h ← deserializeBlockHeight hv
    let s ← deserializeState3 sv
    let k ← deserializePrivateKey kv
    some (.BtcRefunded h s k)
  | .obj [("Done", ev)] => (deserializeEndState ev).map .Done
  | _ => none

theorem deserializeState3_roundtrip (s : State3) :
    deserializeState3 (serializeState3 s) = some s := by
  cases s; rfl

theorem deserializeBlockHeight_roundtrip (h : BlockHeight) :
    deserializeBlockHeight (serializeBlockHeight h) = some h := by
  cases h; rfl

/-! ## Wire protocols (`src/swap/src/network/transfer_proof.rs` and
`src/swap/src/network/encrypted_signature.rs`)

A `RequestResponse` behaviour is characterized, for the claims at hand, by
the list of (protocol name, directional support) pairs passed to
`Behaviour::new` together with its request and response type parameters. -/

/-- `libp2p::request_response::ProtocolSupport`. -/
inductive ProtocolSupport where
  | Inbound
  | Outbound
  | Full
deriving DecidableEq, Repr

/-- The observable construction data of a
`RequestResponse<CborCodec<_, Req, Resp>>` behaviour: the advertised
protocols with their directional support. -/
structure Behaviour (Req Resp : Type) where
  protocols : List (String × ProtocolSupport)
deriving DecidableEq, Repr

/-- `RequestResponseMessage<Req, Resp>`: an incoming request (with a channel
on which a response of type `Resp` could be sent back) or an incoming
response to an outbound request. -/
inductive RRMessage (Req Resp : Type) where
  | request (request_id : RequestId) (request : Req) (channel : Nat)
  | response (request_id : RequestId) (response : Resp)

/-! Runtime out-events of the two roles (`crate::protocol::alice::OutEvent`
and `crate::protocol::bob::OutEvent` are repository code outside the
excerpt; the constructors below are the ones produced by the `From`
implementations in the excerpt, and `unexpected_request` /
`unexpected_response` are modelled from the spec: a request arriving on a
protocol where the peer is not the responder yields an *unexpected request*
event that carries no response channel, so no response can be sent). -/

namespace alice

/-- The maker's swarm out-events reachable from the two excerpted `From`
implementations. -/
inductive OutEvent where
  | TransferProofAcknowledged (peer : PeerId) (id : RequestId)
  | EncryptedSignatureReceived (msg : EncryptedSignature) (channel : Nat)
      (peer : PeerId)
  | UnexpectedRequest (peer : PeerId)
  | UnexpectedResponse (peer : PeerId)
deriving DecidableEq, Repr

/-- Modelled from the spec: `OutEvent::unexpected_request` builds the
protocol-violation event from the offending peer alone. -/
def OutEvent.unexpected_request (peer : PeerId) : OutEvent :=
  .UnexpectedRequest peer

/-- Modelled from the spec: `OutEvent::unexpected_response`. -/
def OutEvent.unexpected_response (peer : PeerId) : OutEvent :=
  .UnexpectedResponse peer

end alice

namespace bob

/-- The taker's swarm out-events reachable from the two excerpted `From`
implementations. -/
inductive OutEvent where
  | TransferProofReceived (msg : TransferProof) (channel : Nat)
  | EncryptedSignatureAcknowledged (id : RequestId)
  | UnexpectedRequest (peer : PeerId)
  | UnexpectedResponse (peer : PeerId)
deriving DecidableEq, Repr

/-- Modelled from the spec: `OutEvent::unexpected_request`. -/
def OutEvent.unexpected_request (peer : PeerId) : OutEvent :=
  .UnexpectedRequest peer

/-- Modelled from the spec: `OutEvent::unexpected_response`. -/
def OutEvent.unexpected_response (peer : PeerId) : OutEvent :=
  .UnexpectedResponse peer

end bob

/-- Top-level alias usable inside protocol namespaces where `alice` names a
behaviour constructor. -/
abbrev AliceOutEvent := alice.OutEvent

/-- Top-level alias usable inside protocol namespaces where `bob` names a
behaviour constructor. -/
abbrev BobOutEvent := bob.OutEvent

namespace transfer_proof

/-- `const PROTOCOL` of transfer_proof.rs. -/
def PROTOCOL : String := "/comit/xmr/btc/transfer_proof/1.0.0"

/-- The transfer_proof request record: the Monero lock transfer proof. -/
structure Request where
  tx_lock_proof : TransferProof
deriving DecidableEq, Repr

/-- The transfer_proof response type: the unit type `()` (empty ack). -/
abbrev Response : Type := Unit

/-- `transfer_proof::alice()`: Alice's behaviour advertises the protocol
with outbound-only support. -/
def alice : Behaviour Request Response :=
  ⟨[(PROTOCOL, ProtocolSupport.Outbound)]⟩

/-- `transfer_proof::bob()`: Bob's behaviour advertises the protocol with
inbound-only support. -/
def bob : Behaviour Request Response :=
  ⟨[(PROTOCOL, ProtocolSupport.Inbound)]⟩

/-- `impl From<(PeerId, Message)> for alice::OutEvent` of transfer_proof.rs
(lines 48-58): a request is unexpected for Alice, a response acknowledges
her transfer proof. -/
def aliceOutEvent : PeerId × RRMessage Request Response → AliceOutEvent
  | (peer, .request _ _ _) => .unexpected_request peer
  | (peer, .response request_id _) =>
    .TransferProofAcknowledged peer request_id

/-- `impl From<(PeerId, Message)> for bob::OutEvent` of transfer_proof.rs
(lines 60-74): a request delivers the transfer proof to Bob together with
the channel for the ack, a response is unexpected for Bob. -/
def bobOutEvent : PeerId × RRMessage Request Response → BobOutEvent
  | (_, .request _ request channel) =>
    .TransferProofReceived request.tx_lock_proof channel
  | (peer, .response _ _) => .unexpected_response peer

end transfer_proof

namespace encrypted_signature

/-- `const PROTOCOL` of encrypted_signature.rs. -/
def PROTOCOL : String := "/comit/xmr/btc/encrypted_signature/1.0.0"

/-- The encrypted_signature request record: the encrypted signature on the
BTC redeem transaction. -/
structure Request where
  tx_redeem_encsig : EncryptedSignature
deriving DecidableEq, Repr

/-- The encrypted_signature response type: the unit type `()` (empty ack). -/
abbrev Response : Type := Unit

/-- `encrypted_signature::alice()`: Alice's behaviour advertises the
protocol with inbound-only support. -/
def alice : Behaviour Request Response :=
  ⟨[(PROTOCOL, ProtocolSupport.Inbound)]⟩

/-- `encrypted_signature::bob()`: Bob's behaviour advertises the protocol
with outbound-only support. -/
def bob : Behaviour Request Response :=
  ⟨[(PROTOCOL, ProtocolSupport.Outbound)]⟩

/-- `impl From<(PeerId, Message)> for alice::OutEvent` of
encrypted_signature.rs (lines 47-61): a request delivers the encrypted
signature to Alice with the ack channel, a response is unexpected. -/
def aliceOutEvent : PeerId × RRMessage Request Response → AliceOutEvent
  | (peer, .request _ request channel) =>
    .EncryptedSignatureReceived request.tx_redeem_encsig channel peer
  | (peer, .response _ _) => .unexpected_response peer

/-- `impl From<(PeerId, Message)> for bob::OutEvent` of
encrypted_signature.rs (lines 63-72): a request is unexpected for Bob, a
response acknowledges his encrypted signature. -/
def bobOutEvent : PeerId × RRMessage Request Response → BobOutEvent
  | (peer, .request _ _ _) => .unexpected_request peer
  | (_, .response request_id _) =>
    .EncryptedSignatureAcknowledged request_id

end encrypted_signature

/-! ## ASB configuration (`src/swap/src/asb/config.rs`)

`Config::read` merges the TOML config file and deserializes it with serde
(`config.try_into()`).  The embedding takes the parsed file as a key-value
tree and performs the serde deserialization: each of the six group structs
is marked `#[serde(deny_unknown_fields)]` in the source, while the
top-level `Config` struct is not.  URL, multiaddr and path leaves are
carried as strings; Bitcoin amounts deserialized `as_btc` become satoshi
counts; `rust_decimal::Decimal` values and TOML floats are carried as
scaled decimals (`mantissa * 10 ^ -scale`), which is the representation
of `rust_decimal` itself. -/

namespace asb

/-- A scaled decimal, the representation of `rust_decimal::Decimal`: the
denoted value is `mantissa / 10 ^ scale`. -/
structure Dec where
  mantissa : Int
  scale : Nat
deriving DecidableEq, Repr

/-- Strict order on scaled decimals (cross multiplication). -/
def Dec.lt (a b : Dec) : Bool :=
  decide (a.mantissa * (10 : Int) ^ b.scale < b.mantissa * (10 : Int) ^ a.scale)

/-- A parsed TOML value. -/
inductive TomlValue where
  | str (s : String)
  | int (n : Int)
  | float (d : Dec)
  | arr (elems : List TomlValue)
  | table (entries : List (String × TomlValue))

/-- First-match key lookup in a TOML table. -/
def lookupKey : List (String × TomlValue) → String → Option TomlValue
  | [], _ => none
  | (k, v) :: rest, key => if k = key then some v else lookupKey rest key

/-- `#[serde(deny_unknown_fields)]`: every key of the table is declared. -/
def keysAllowed (entries : List (String × TomlValue)) (allowed : List String) :
    Bool :=
  entries.all fun kv => allowed.contains kv.1

/-- A required serde field: absence is a deserialization error. -/
def reqField (entries : List (String × TomlValue)) (k : String) :
    Except String TomlValue :=
  match lookupKey entries k with
  | some v => .ok v
  | none => .error ("missing field " ++ k)

/-- String leaf (paths, URLs and multiaddrs are carried as strings). -/
def asString : TomlValue → Except String String
  | .str s => .ok s
  | _ => .error "expected string"

/-- List-of-strings leaf (the `network.listen` multiaddr list). -/
def asStringList : TomlValue → Except String (List String)
  | .arr elems => elems.mapM asString
  | _ => .error "expected array"

/-- Unsigned integer leaf (`usize`/`u32`/`u64` fields). -/
def asNat : TomlValue → Except String Nat
  | .int n => if 0 ≤ n then .ok n.toNat else .error "expected unsigned"
  | _ => .error "expected integer"

/-- `u16` leaf (the Tor ports). -/
def asU16 : TomlValue → Except String Nat := fun v => do
  let n ← asNat v
  if n < 65536 then .ok n else .error "u16 out of range"

/-- Optional unsigned field (`finality_confirmations`): missing is `none`. -/
def optNatField (entries : List (String × TomlValue)) (k : String) :
    Except String (Option Nat) :=
  match lookupKey entries k with
  | none => .ok none
  | some v => (asNat v).map some

/-- Decimal leaf: a TOML float or integer (`rust_decimal::Decimal` and the
`as_btc` amounts deserialize from numbers). -/
def asDec : TomlValue → Except String Dec
  | .float d => .ok d
  | .int n => .ok ⟨n, 0⟩
  | _ => .error "expected number"

/-- `bitcoin::Amount::from_btc`: BTC value to satoshis; fails on negative
values and on sub-satoshi (more than eight decimal places) precision. -/
def btcAmountFromBtc (d : Dec) : Except String Nat :=
  if d.mantissa < 0 then .error "amount negative"
  else if d.scale ≤ 8 then .ok (d.mantissa.toNat * 10 ^ (8 - d.scale))
  else if d.mantissa.toNat % 10 ^ (d.scale - 8) = 0 then
    .ok (d.mantissa.toNat / 10 ^ (d.scale - 8))
  else .error "amount precision too high"

/-- `as_btc`-deserialized amount field. -/
def asBtcAmount (v : TomlValue) : Except String Nat := do
  let d ← asDec v
  btcAmountFromBtc d

/-- Modelled from the spec: the `crate::bitcoin::network` serde module
renders the Bitcoin network tag as a string. -/
inductive BitcoinNetwork where
  | Bitcoin
  | Testnet
deriving DecidableEq, Repr

/-- Modelled from the spec: parse the Bitcoin network tag. -/
def parseBitcoinNetwork : TomlValue → Except String BitcoinNetwork
  | .str "Bitcoin" => .ok .Bitcoin
  | .str "Testnet" => .ok .Testnet
  | _ => .error "invalid bitcoin network"

/-- Modelled from the spec: the `crate::monero::network` serde module
renders the Monero network tag as a string. -/
inductive MoneroNetwork where
  | Mainnet
  | Stagenet
deriving DecidableEq, Repr

/-- Modelled from the spec: parse the Monero network tag. -/
def parseMoneroNetwork : TomlValue → Except String MoneroNetwork
  | .str "Mainnet" => .ok .Mainnet
  | .str "Stagenet" => .ok .Stagenet
  | _ => .error "invalid monero network"

/-- `Data` group: the on-disk directory. -/
structure Data where
  dir : String
deriving DecidableEq, Repr

/-- `Network` group: the listen multiaddrs. -/
structure Network where
  listen : List String
deriving DecidableEq, Repr

/-- `Bitcoin` group. -/
structure Bitcoin where
  electrum_rpc_url : String
  target_block : Nat
  finality_confirmations : Option Nat
  network : BitcoinNetwork
deriving DecidableEq, Repr

/-- `Monero` group. -/
structure Monero where
  wallet_rpc_url : String
  finality_confirmations : Option Nat
  network : MoneroNetwork
deriving DecidableEq, Repr

/-- `TorConf` group. -/
structure TorConf where
  control_port : Nat
  socks5_port : Nat
deriving DecidableEq, Repr

/-- `Maker` group; amounts in satoshis, spread as a scaled decimal. -/
structure Maker where
  min_buy_btc : Nat
  max_buy_btc : Nat
  ask_spread : Dec
  price_ticker_ws_url : String
deriving DecidableEq, Repr

/-- The six-group configuration record. -/
structure Config where
  data : Data
  network : Network
  bitcoin : Bitcoin
  monero : Monero
  tor : TorConf
  maker : Maker
deriving DecidableEq, Repr

/-- The declared keys of each group (the serde field lists). -/
def dataKeys : List String := ["dir"]

def networkKeys : List String := ["listen"]

def bitcoinKeys : List String :=
  ["electrum_rpc_url", "target_block", "finality_confirmations", "network"]

def moneroKeys : List String :=
  ["wallet_rpc_url", "finality_confirmations", "network"]

def torKeys : List String := ["control_port", "socks5_port"]

def makerKeys : List String :=
  ["min_buy_btc", "max_buy_btc", "ask_spread", "price_ticker_ws_url"]

/-- The six group names of the top-level record. -/
def topLevelGroups : List String :=
  ["data", "network", "bitcoin", "monero", "tor", "maker"]

/-- serde deserializer of `Data` (`deny_unknown_fields`). -/
def deserializeData : TomlValue → Except String Data
  | .table entries =>
    if keysAllowed entries dataKeys then do
      let d ← reqField entries "dir" >>= asString
      .ok ⟨d⟩
    else .error "data: unknown field"
  | _ => .error "data: expected table"

/-- serde deserializer of `Network` (`deny_unknown_fields`). -/
def deserializeNetwork : TomlValue → Except String Network
  | .table entries =>
    if keysAllowed entries networkKeys then do
      let l ← reqField entries "listen" >>= asStringList
      .ok ⟨l⟩
    else .error "network: unknown field"
  | _ => .error "network: expected table"

/-- serde deserializer of `Bitcoin` (`deny_unknown_fields`). -/
def deserializeBitcoin : TomlValue → Except String Bitcoin
  | .table entries =>
    if keysAllowed entries bitcoinKeys then do
      let u ← reqField entries "electrum_rpc_url" >>= asString
      let t ← reqField entries "target_block" >>= asNat
      let f ← optNatField entries "finality_confirmations"
      let n ← reqField entries "network" >>= parseBitcoinNetwork
      .ok ⟨u, t, f, n⟩
    else .error "bitcoin: unknown field"
  | _ => .error "bitcoin: expected table"

/-- serde deserializer of `Monero` (`deny_unknown_fields`). -/
def deserializeMonero : TomlValue → Except String Monero
  | .table entries =>
    if keysAllowed entries moneroKeys then do
      let u ← reqField entries "wallet_rpc_url" >>= asString
      let f ← optNatField entries "finality_confirmations"
      let n ← reqField entries "network" >>= parseMoneroNetwork
      .ok ⟨u, f, n⟩
    else .error "monero: unknown field"
  | _ => .error "monero: expected table"

/-- serde deserializer of `TorConf` (`deny_unknown_fields`). -/
def deserializeTorConf : TomlValue → Except String TorConf
  | .table entries =>
    if keysAllowed entries torKeys then do
      let c ← reqField entries "control_port" >>= asU16
      let s ← reqField entries "socks5_port" >>= asU16
      .ok ⟨c, s⟩
    else .error "tor: unknown field"
  | _ => .error "tor: expected table"

/-- serde deserializer of `Maker` (`deny_unknown_fields`); note: the
`ask_spread` field is read as a plain `Decimal` with no range check. -/
def deserializeMaker : TomlValue → Except String Maker
  | .table entries =>
    if keysAllowed entries makerKeys then do
      let mn ← reqField entries "min_buy_btc" >>= asBtcAmount
      let mx ← reqField entries "max_buy_btc" >>= asBtcAmount
      let sp ← reqField entries "ask_spread" >>= asDec
      let u ← reqField entries "price_ticker_ws_url" >>= asString
      .ok ⟨mn, mx, sp, u⟩
    else .error "maker: unknown field"
  | _ => .error "maker: expected table"

/-- serde deserializer of the top-level `Config` struct, which does *not*
carry `deny_unknown_fields`: keys other than the six groups are ignored. -/
def deserializeConfig : TomlValue → Except String Config
  | .table entries => do
    let d ← reqField entries "data" >>= deserializeData
    let n ← reqField entries "network" >>= deserializeNetwork
    let b ← reqField entries "bitcoin" >>= deserializeBitcoin
    let m ← reqField entries "monero" >>= deserializeMonero
    let t ← reqField entries "tor" >>= deserializeTorConf
    let mk ← reqField entries "maker" >>= deserializeMaker
    .ok ⟨d, n, b, m, t, mk⟩
  | _ => .error "expected table"

/-- `Config::read` (config.rs lines 98-109): merge the config file and
deserialize it; no validation beyond deserialization is performed. -/
def Config.read (file : TomlValue) : Except String Config :=
  deserializeConfig file

/-! ### Per-network defaults (config.rs lines 34-70) -/

/-- `const DEFAULT_MIN_BUY_AMOUNT: f64 = 0.002`. -/
def DEFAULT_MIN_BUY_AMOUNT : Dec := ⟨2, 3⟩

/-- `const DEFAULT_MAX_BUY_AMOUNT: f64 = 0.02`. -/
def DEFAULT_MAX_BUY_AMOUNT : Dec := ⟨2, 2⟩

/-- `const DEFAULT_SPREAD: f64 = 0.02`. -/
def DEFAULT_SPREAD : Dec := ⟨2, 2⟩

/-- Modelled from the spec: the default Tor control port from
`crate::tor` (outside the excerpt; the claims do not constrain it). -/
def DEFAULT_CONTROL_PORT : Nat := 9051

/-- Modelled from the spec: the default Tor socks5 port from `crate::tor`. -/
def DEFAULT_SOCKS5_PORT : Nat := 9050

/-- The `Defaults` record (config.rs lines 23-32); paths as strings. -/
structure Defaults where
  config_path : String
  data_dir : String
  listen_address_tcp : String
  listen_address_ws : String
  electrum_rpc_url : String
  monero_wallet_rpc_url : String
  price_ticker_ws_url : String
  bitcoin_confirmation_target : Nat
deriving DecidableEq, Repr

/-- `default_asb_config_dir()`: the system config dir joined with `asb`. -/
def default_asb_config_dir (systemConfigDir : String) : String :=
  systemConfigDir ++ "/asb"

/-- `default_asb_data_dir()`: the system data dir joined with `asb`. -/
def default_asb_data_dir (systemDataDir : String) : String :=
  systemDataDir ++ "/asb"

/-- `impl GetDefaults for Testnet` (config.rs lines 34-51), value for
value. -/
def Testnet.getConfigFileDefaults (systemConfigDir systemDataDir : String) :
    Defaults :=
  ⟨default_asb_config_dir systemConfigDir ++ "/testnet/config.toml",
   default_asb_data_dir systemDataDir ++ "/testnet",
   "/ip4/0.0.0.0/tcp/9939",
   "/ip4/0.0.0.0/tcp/9940/ws",
   "ssl://electrum.blockstream.info:60002",
   "http://127.0.0.1:38083/json_rpc",
   "wss://ws.kraken.com",
   1⟩

/-- `impl GetDefaults for Mainnet` (config.rs lines 53-70), value for
value. -/
def Mainnet.getConfigFileDefaults (systemConfigDir systemDataDir : String) :
    Defaults :=
  ⟨default_asb_config_dir systemConfigDir ++ "/mainnet/config.toml",
   default_asb_data_dir systemDataDir ++ "/mainnet",
   "/ip4/0.0.0.0/tcp/9939",
   "/ip4/0.0.0.0/tcp/9940/ws",
   "ssl://electrum.blockstream.info:50002",
   "http://127.0.0.1:18083/json_rpc",
   "wss://ws.kraken.com",
   3⟩

/-! ### Interactive initial setup (config.rs lines 205-311) -/

/-- The values the operator enters at the interactive prompts of
`query_user_for_initial_config`, in prompt order. -/
structure UserInput where
  data_dir : String
  target_block : Nat
  listen_addresses : String
  electrum_rpc_url : String
  monero_wallet_rpc_url : String
  tor_control_port : Nat
  tor_socks5_port : Nat
  min_buy : Dec
  max_buy : Dec
  ask_spread : Dec
deriving DecidableEq, Repr

/-- The comma-split of the listen-address prompt answer. -/
def splitListenAddresses (s : String) : List String := s.splitOn ","

/-- `query_user_for_initial_config` (config.rs lines 205-311): builds the
initial `Config` from the prompt answers; `min_buy`/`max_buy` go through
`bitcoin::Amount::from_btc`, and the spread is rejected unless it lies in
`[0, 1]`; the price ticker URL is taken from the per-network defaults. -/
def query_user_for_initial_config (testnet : Bool) (input : UserInput) :
    Except String Config := do
  let bitcoin_network := if testnet then BitcoinNetwork.Testnet
    else BitcoinNetwork.Bitcoin
  let monero_network := if testnet then MoneroNetwork.Stagenet
    else MoneroNetwork.Mainnet
  let min_buy ← btcAmountFromBtc input.min_buy
  let max_buy ← btcAmountFromBtc input.max_buy
  if Dec.lt input.ask_spread ⟨0, 0⟩ || Dec.lt ⟨1, 0⟩ input.ask_spread then
    .error "Invalid spread. For the spread value floating point number in interval [0..1] are allowed."
  else
    .ok ⟨⟨input.data_dir⟩,
         ⟨splitListenAddresses input.listen_addresses⟩,
         ⟨input.electrum_rpc_url, input.target_block, none, bitcoin_network⟩,
         ⟨input.monero_wallet_rpc_url, none, monero_network⟩,
         ⟨input.tor_control_port, input.tor_socks5_port⟩,
         ⟨min_buy, max_buy, input.ask_spread, "wss://ws.kraken.com"⟩⟩

end asb

/-! ## Claim theorems -/

/-- C1 (code bug): evaluation of the persisted-to-runtime conversion at the
failing input.  The persisted `WaitingForTxLockConfirmations` variant is
mapped by `From<Alice> for AliceState` to the runtime
`WatchingForTxLockInMempool` state, so the variant tag is not preserved and
persisting the runtime `WaitingForTxLockConfirmations` state and loading it
back does not yield an equal state. -/
theorem C1_fromDb_collapses_waitingForTxLockConfirmations :
    AliceState.fromDb (Alice.WaitingForTxLockConfirmations defaultState3) =
      AliceState.WatchingForTxLockInMempool defaultState3 ∧
    (AliceState.fromDb (Alice.fromState
        (AliceState.WaitingForTxLockConfirmations defaultState3)) ==
      AliceState.WaitingForTxLockConfirmations defaultState3) = false := by
  exact ⟨rfl, by decide⟩

/-- C2: serializing any of the nine persisted `Alice` variants (including
`Done` with each of the four end states) and deserializing the result
yields the original value. -/
theorem C2_persisted_alice_serialization_roundtrip (s : Alice) :
    deserializeAlice (serializeAlice s) = some s := by
  cases s with
  | WatchingForTxLockInMempool s3 => cases s3; rfl
  | WaitingForTxLockConfirmations s3 => cases s3; rfl
  | WaitingForEncSig s3 => cases s3; rfl
  | EncSigLearned h e s3 => cases h; cases e; cases s3; rfl
  | CancelTimelockExpired h s3 => cases h; cases s3; rfl
  | BtcCancelled h s3 => cases h; cases s3; rfl
  | BtcPunishable h s3 => cases h; cases s3; rfl
  | BtcRefunded h s3 k => cases h; cases s3; cases k; rfl
  | Done e => cases e <;> rfl

/-- C3 counterexample: the persisted `WaitingForEncSig` variant — a state
reached after the XMR lock according to the specified state sequence —
does not carry the Monero wallet restore blockheight: it holds only a
`State3`. -/
theorem C3_counterexample_waitingForEncSig_has_no_blockheight :
    (Alice.WaitingForEncSig defaultState3).restoreBlockheight? = none := rfl

/-- C3 (amended): of the listed variants, `EncSigLearned`,
`CancelTimelockExpired`, `BtcCancelled`, `BtcPunishable` and `BtcRefunded`
carry the Monero wallet restore blockheight — `WaitingForEncSig` does not,
carrying only `State3` — and additionally `BtcRefunded` carries the
recovered Monero spend key and `EncSigLearned` the received encrypted
signature. -/
theorem C3_amended_post_xmr_lock_payloads :
    (∀ h e s, (Alice.EncSigLearned h e s).restoreBlockheight? = some h ∧
      (Alice.EncSigLearned h e s).encsig? = some e) ∧
    (∀ h s, (Alice.CancelTimelockExpired h s).restoreBlockheight? = some h) ∧
    (∀ h s, (Alice.BtcCancelled h s).restoreBlockheight? = some h) ∧
    (∀ h s, (Alice.BtcPunishable h s).restoreBlockheight? = some h) ∧
    (∀ h s k, (Alice.BtcRefunded h s k).restoreBlockheight? = some h ∧
      (Alice.BtcRefunded h s k).spendKey? = some k) ∧
    (∀ s, (Alice.WaitingForEncSig s).restoreBlockheight? = none ∧
      (Alice.WaitingForEncSig s).state3? = some s) :=
  ⟨fun _ _ _ => ⟨rfl, rfl⟩, fun _ _ => rfl, fun _ _ => rfl, fun _ _ => rfl,
   fun _ _ _ => ⟨rfl, rfl⟩, fun _ => ⟨rfl, rfl⟩⟩

/-- C4: a persisted variant lacks the `State3` payload exactly when it is
the terminal `Done` tag, and the runtime-to-persisted conversion maps each
of the four terminal runtime states to `Done` with the corresponding
payload-free end-state tag. -/
theorem C4_state3_kept_until_done_and_terminals_collapse :
    (∀ a : Alice, a.state3? = none ↔ ∃ e, a = Alice.Done e) ∧
    Alice.fromState AliceState.BtcRedeemed =
      Alice.Done AliceEndState.BtcRedeemed ∧
    Alice.fromState AliceState.XmrRefunded =
      Alice.Done AliceEndState.XmrRefunded ∧
    Alice.fromState AliceState.BtcPunished =
      Alice.Done AliceEndState.BtcPunished ∧
    Alice.fromState AliceState.SafelyAborted =
      Alice.Done AliceEndState.SafelyAborted := by
  refine ⟨fun a => ?_, rfl, rfl, rfl, rfl⟩
  cases a <;> simp [Alice.state3?]

/-- C5: the transfer_proof behaviour advertises outbound-only support for
Alice and inbound-only for Bob, the encrypted_signature behaviour
advertises inbound-only support for Alice and outbound-only for Bob, the
request payloads are exactly `tx_lock_proof` respectively
`tx_redeem_encsig`, and both response types are the unit type (empty ack,
a single possible value). -/
theorem C5_protocol_directions_payloads_and_acks :
    transfer_proof.alice.protocols =
      [(transfer_proof.PROTOCOL, ProtocolSupport.Outbound)] ∧
    transfer_proof.bob.protocols =
      [(transfer_proof.PROTOCOL, ProtocolSupport.Inbound)] ∧
    encrypted_signature.alice.protocols =
      [(encrypted_signature.PROTOCOL, ProtocolSupport.Inbound)] ∧
    encrypted_signature.bob.protocols =
      [(encrypted_signature.PROTOCOL, ProtocolSupport.Outbound)] ∧
    (∀ r : transfer_proof.Request, r = ⟨r.tx_lock_proof⟩) ∧
    (∀ r : encrypted_signature.Request, r = ⟨r.tx_redeem_encsig⟩) ∧
    (∀ x y : transfer_proof.Response, x = y) ∧
    (∀ x y : encrypted_signature.Response, x = y) :=
  ⟨rfl, rfl, rfl, rfl, fun _ => rfl, fun _ => rfl,
   fun _ _ => rfl, fun _ _ => rfl⟩

/-- C6: a transfer_proof request arriving at Alice maps to the
unexpected-request event (not a received-message event), and an
encrypted_signature request arriving at Bob maps to the unexpected-request
event; in both cases the produced event carries only the peer — in
particular not the response channel, so no response can be generated. -/
theorem C6_wrong_direction_requests_map_to_unexpected :
    (∀ (peer : PeerId) (rid : RequestId) (req : transfer_proof.Request)
        (chan : Nat),
      transfer_proof.aliceOutEvent (peer, .request rid req chan) =
        alice.OutEvent.UnexpectedRequest peer) ∧
    (∀ (peer : PeerId) (rid : RequestId) (req : encrypted_signature.Request)
        (chan : Nat),
      encrypted_signature.bobOutEvent (peer, .request rid req chan) =
        bob.OutEvent.UnexpectedRequest peer) :=
  ⟨fun _ _ _ _ => rfl, fun _ _ _ _ => rfl⟩

/-- A syntactically valid configuration file whose `maker.ask_spread` is 2,
outside `[0, 1]`. -/
def badSpreadConfigFile : asb.TomlValue :=
  .table
    [("data", .table [("dir", .str "/var/asb")]),
     ("network", .table [("listen", .arr [.str "/ip4/0.0.0.0/tcp/9939"])]),
     ("bitcoin",
      .table [("electrum_rpc_url", .str "ssl://electrum.blockstream.info:60002"),
              ("target_block", .int 1),
              ("network", .str "Testnet")]),
     ("monero",
      .table [("wallet_rpc_url", .str "http://127.0.0.1:38083/json_rpc"),
              ("network", .str "Stagenet")]),
     ("tor", .table [("control_port", .int 9051), ("socks5_port", .int 9050)]),
     ("maker",
      .table [("min_buy_btc", .float ⟨2, 3⟩),
              ("max_buy_btc", .float ⟨2, 2⟩),
              ("ask_spread", .float ⟨2, 0⟩),
              ("price_ticker_ws_url", .str "wss://ws.kraken.com")])]

/-- C7 counterexample: `Config::read` accepts a configuration file whose
`maker.ask_spread` is 2, which lies outside `[0, 1]`: loading returns a
valid `Config` carrying that spread, not an error. -/
theorem C7_counterexample_read_accepts_out_of_range_spread :
    (asb.Config.read badSpreadConfigFile).isOk = true ∧
    (asb.Config.read badSpreadConfigFile).toOption.map
      (fun c => c.maker.ask_spread) = some ⟨2, 0⟩ ∧
    asb.Dec.lt ⟨1, 0⟩ ⟨2, 0⟩ = true :=
  ⟨rfl, rfl, by decide⟩

/-- C7 (amended): the `[0, 1]` range check on the ask spread happens only
in the interactive initial setup `query_user_for_initial_config`, which
refuses an out-of-range spread; `Config::read` performs no such check (see
the counterexample). -/
theorem C7_amended_spread_rejected_at_initial_setup
    (testnet : Bool) (input : asb.UserInput)
    (h : (asb.Dec.lt input.ask_spread ⟨0, 0⟩
        || asb.Dec.lt ⟨1, 0⟩ input.ask_spread) = true) :
    (asb.query_user_for_initial_config testnet input).isOk = false := by
  unfold asb.query_user_for_initial_config
  cases hmn : asb.btcAmountFromBtc input.min_buy with
  | error e => simp [Bind.bind, Except.bind, Except.isOk, Except.toBool]
  | ok mn =>
    cases hmx : asb.btcAmountFromBtc input.max_buy with
    | error e => simp [Bind.bind, Except.bind, Except.isOk, Except.toBool]
    | ok mx => simp [Bind.bind, Except.bind, Except.isOk, Except.toBool, h]

/-- C7 amended witness: an interactive setup with spread 2 is refused. -/
theorem C7_amended_spread_rejected_at_initial_setup_witness :
    (asb.Dec.lt (⟨2, 0⟩ : asb.Dec) ⟨0, 0⟩
        || asb.Dec.lt ⟨1, 0⟩ (⟨2, 0⟩ : asb.Dec)) = true ∧
    (asb.query_user_for_initial_config true
      ⟨"/var/asb", 1, "/ip4/0.0.0.0/tcp/9939,/ip4/0.0.0.0/tcp/9940/ws",
       "ssl://electrum.blockstream.info:60002",
       "http://127.0.0.1:38083/json_rpc", 9051, 9050,
       ⟨2, 3⟩, ⟨2, 2⟩, ⟨2, 0⟩⟩).isOk = false :=
  ⟨by decide,
   C7_amended_spread_rejected_at_initial_setup true
     ⟨"/var/asb", 1, "/ip4/0.0.0.0/tcp/9939,/ip4/0.0.0.0/tcp/9940/ws",
      "ssl://electrum.blockstream.info:60002",
      "http://127.0.0.1:38083/json_rpc", 9051, 9050,
      ⟨2, 3⟩, ⟨2, 2⟩, ⟨2, 0⟩⟩ (by decide)⟩

/-! ### Helper lemmas about `Except` and table lookup (claim C8) -/

/-- If a bind in the `Except` monad is `ok`, the first step is `ok` and the
continuation is `ok` on its result. -/
theorem exceptBind_eq_ok {α β : Type} {x : Except String α}
    {f : α → Except String β} {b : β} (h : (x >>= f) = .ok b) :
    ∃ a, x = .ok a ∧ f a = .ok b := by
  cases x with
  | error e => simp [Bind.bind, Except.bind] at h
  | ok a => exact ⟨a, rfl, by simpa [Bind.bind, Except.bind] using h⟩

/-- If a bind in the `Except` monad reports `isOk`, the first step is `ok`
and the continuation reports `isOk` on its result. -/
theorem exceptBind_isOk {α β : Type} {x : Except String α}
    {f : α → Except String β} (h : (x >>= f).isOk = true) :
    ∃ a, x = .ok a ∧ (f a).isOk = true := by
  cases x with
  | error e => simp [Bind.bind, Except.bind, Except.isOk, Except.toBool] at h
  | ok a => exact ⟨a, rfl, by simpa [Bind.bind, Except.bind] using h⟩

/-- A table containing an undeclared key fails the `deny_unknown_fields`
check. -/
theorem keysAllowed_false {entries : List (String × asb.TomlValue)}
    {allowed : List String} {kv : String × asb.TomlValue}
    (hmem : kv ∈ entries) (hk : allowed.contains kv.1 = false) :
    asb.keysAllowed entries allowed = false := by
  unfold asb.keysAllowed
  rw [List.all_eq_false]
  exact ⟨kv, hmem, by rw [hk]; simp⟩

/-- A successful lookup makes the required-field extraction succeed with
the looked-up value. -/
theorem reqField_ok_of_lookup {entries : List (String × asb.TomlValue)}
    {k : String} {v : asb.TomlValue}
    (h : asb.lookupKey entries k = some v) :
    asb.reqField entries k = .ok v := by
  unfold asb.reqField
  rw [h]

/-- Appending an entry under a different key does not change a lookup. -/
theorem lookupKey_append_single {entries : List (String × asb.TomlValue)}
    {k key : String} {v : asb.TomlValue} (h : k ≠ key) :
    asb.lookupKey (entries ++ [(k, v)]) key = asb.lookupKey entries key := by
  induction entries with
  | nil => simp [asb.lookupKey, h]
  | cons hd tl ih =>
    obtain ⟨k1, v1⟩ := hd
    by_cases hh : k1 = key <;> simp [asb.lookupKey, hh, ih]

/-- Appending an entry under a different key does not change a required
field. -/
theorem reqField_append_single {entries : List (String × asb.TomlValue)}
    {k key : String} {v : asb.TomlValue} (h : k ≠ key) :
    asb.reqField (entries ++ [(k, v)]) key = asb.reqField entries key := by
  unfold asb.reqField
  rw [lookupKey_append_single h]

/-- If `Config::read` succeeds on a file, then every group deserializer
succeeded on the corresponding looked-up group value. -/
theorem configRead_isOk_groups {entries : List (String × asb.TomlValue)}
    (h : (asb.Config.read (.table entries)).isOk = true) :
    (∀ v, asb.lookupKey entries "data" = some v →
      (asb.deserializeData v).isOk = true) ∧
    (∀ v, asb.lookupKey entries "network" = some v →
      (asb.deserializeNetwork v).isOk = true) ∧
    (∀ v, asb.lookupKey entries "bitcoin" = some v →
      (asb.deserializeBitcoin v).isOk = true) ∧
    (∀ v, asb.lookupKey entries "monero" = some v →
      (asb.deserializeMonero v).isOk = true) ∧
    (∀ v, asb.lookupKey entries "tor" = some v →
      (asb.deserializeTorConf v).isOk = true) ∧
    (∀ v, asb.lookupKey entries "maker" = some v →
      (asb.deserializeMaker v).isOk = true) := by
  unfold asb.Config.read asb.deserializeConfig at h
  obtain ⟨d, hd, h⟩ := exceptBind_isOk h
  obtain ⟨dv, hdv, hdd⟩ := exceptBind_eq_ok hd
  obtain ⟨n, hn, h⟩ := exceptBind_isOk h
  obtain ⟨nv, hnv, hnd⟩ := exceptBind_eq_ok hn
  obtain ⟨b, hb, h⟩ := exceptBind_isOk h
  obtain ⟨bv, hbv, hbd⟩ := exceptBind_eq_ok hb
  obtain ⟨m, hm, h⟩ := exceptBind_isOk h
  obtain ⟨mv, hmv, hmd⟩ := exceptBind_eq_ok hm
  obtain ⟨t, ht, h⟩ := exceptBind_isOk h
  obtain ⟨tv, htv, htd⟩ := exceptBind_eq_ok ht
  obtain ⟨mk, hmk, h⟩ := exceptBind_isOk h
  obtain ⟨mkv, hmkv, hmkd⟩ := exceptBind_eq_ok hmk
  refine ⟨fun v hv => ?_, fun v hv => ?_, fun v hv => ?_, fun v hv => ?_,
    fun v hv => ?_, fun v hv => ?_⟩
  · rw [reqField_ok_of_lookup hv] at hdv
    injection hdv with he
    subst he
    simp [hdd, Except.isOk, Except.toBool]
  · rw [reqField_ok_of_lookup hv] at hnv
    injection hnv with he
    subst he
    simp [hnd, Except.isOk, Except.toBool]
  · rw [reqField_ok_of_lookup hv] at hbv
    injection hbv with he
    subst he
    simp [hbd, Except.isOk, Except.toBool]
  · rw [reqField_ok_of_lookup hv] at hmv
    injection hmv with he
    subst he
    simp [hmd, Except.isOk, Except.toBool]
  · rw [reqField_ok_of_lookup hv] at htv
    injection htv with he
    subst he
    simp [htd, Except.isOk, Except.toBool]
  · rw [reqField_ok_of_lookup hv] at hmkv
    injection hmkv with he
    subst he
    simp [hmkd, Except.isOk, Except.toBool]

/-- The entries of a fully valid configuration file (testnet defaults). -/
def goodConfigEntries : List (String × asb.TomlValue) :=
  [("data", .table [("dir", .str "/var/asb")]),
   ("network", .table [("listen", .arr [.str "/ip4/0.0.0.0/tcp/9939"])]),
   ("bitcoin",
    .table [("electrum_rpc_url", .str "ssl://electrum.blockstream.info:60002"),
            ("target_block", .int 1),
            ("network", .str "Testnet")]),
   ("monero",
    .table [("wallet_rpc_url", .str "http://127.0.0.1:38083/json_rpc"),
            ("network", .str "Stagenet")]),
   ("tor", .table [("control_port", .int 9051), ("socks5_port", .int 9050)]),
   ("maker",
    .table [("min_buy_btc", .float ⟨2, 3⟩),
            ("max_buy_btc", .float ⟨2, 2⟩),
            ("ask_spread", .float ⟨2, 2⟩),
            ("price_ticker_ws_url", .str "wss://ws.kraken.com")])]

/-- The same configuration file with the maker group carrying an extra key
`spread_typo`, which is not a declared `Maker` field. -/
def badMakerKeyEntries : List (String × asb.TomlValue) :=
  [("data", .table [("dir", .str "/var/asb")]),
   ("network", .table [("listen", .arr [.str "/ip4/0.0.0.0/tcp/9939"])]),
   ("bitcoin",
    .table [("electrum_rpc_url", .str "ssl://electrum.blockstream.info:60002"),
            ("target_block", .int 1),
            ("network", .str "Testnet")]),
   ("monero",
    .table [("wallet_rpc_url", .str "http://127.0.0.1:38083/json_rpc"),
            ("network", .str "Stagenet")]),
   ("tor", .table [("control_port", .int 9051), ("socks5_port", .int 9050)]),
   ("maker",
    .table [("spread_typo", .float ⟨2, 2⟩),
            ("min_buy_btc", .float ⟨2, 3⟩),
            ("max_buy_btc", .float ⟨2, 2⟩),
            ("ask_spread", .float ⟨2, 2⟩),
            ("price_ticker_ws_url", .str "wss://ws.kraken.com")])]

/-- C8 counterexample: a configuration file with an unknown key at the top
level of the file — `surprise`, not one of the six groups — is read
successfully: the top-level `Config` struct carries no
`deny_unknown_fields`, so the key is silently ignored rather than
rejected. -/
theorem C8_counterexample_unknown_top_level_key_accepted :
    (asb.Config.read
      (.table (goodConfigEntries ++ [("surprise", .int 1)]))).isOk = true ∧
    asb.topLevelGroups.contains "surprise" = false ∧
    asb.lookupKey (goodConfigEntries ++ [("surprise", .int 1)]) "surprise" =
      some (.int 1) := by
  refine ⟨rfl, by decide, rfl⟩

/-- C8 (amended): unknown keys inside any of the six configuration groups
are rejected — each group struct carries `deny_unknown_fields`, so a group
table containing an undeclared key fails the whole read — but an unknown
key at the top level of the file is ignored, because the top-level
`Config` struct does not carry `deny_unknown_fields`: appending such a key
leaves the result of `Config::read` unchanged. -/
theorem C8_amended_unknown_keys_rejected_only_inside_groups :
    (∀ entries gentries kv,
      asb.lookupKey entries "data" = some (.table gentries) →
      kv ∈ gentries → asb.dataKeys.contains kv.1 = false →
      (asb.Config.read (.table entries)).isOk = false) ∧
    (∀ entries gentries kv,
      asb.lookupKey entries "network" = some (.table gentries) →
      kv ∈ gentries → asb.networkKeys.contains kv.1 = false →
      (asb.Config.read (.table entries)).isOk = false) ∧
    (∀ entries gentries kv,
      asb.lookupKey entries "bitcoin" = some (.table gentries) →
      kv ∈ gentries → asb.bitcoinKeys.contains kv.1 = false →
      (asb.Config.read (.table entries)).isOk = false) ∧
    (∀ entries gentries kv,
      asb.lookupKey entries "monero" = some (.table gentries) →
      kv ∈ gentries → asb.moneroKeys.contains kv.1 = false →
      (asb.Config.read (.table entries)).isOk = false) ∧
    (∀ entries gentries kv,
      asb.lookupKey entries "tor" = some (.table gentries) →
      kv ∈ gentries → asb.torKeys.contains kv.1 = false →
      (asb.Config.read (.table entries)).isOk = false) ∧
    (∀ entries gentries kv,
      asb.lookupKey entries "maker" = some (.table gentries) →
      kv ∈ gentries → asb.makerKeys.contains kv.1 = false →
      (asb.Config.read (.table entries)).isOk = false) ∧
    (∀ entries k v, ¬ k ∈ asb.topLevelGroups →
      asb.Config.read (.table (entries ++ [(k, v)])) =
        asb.Config.read (.table entries)) := by
  refine ⟨?_, ?_, ?_, ?_, ?_, ?_, ?_⟩
  · intro entries gentries kv hlk hmem hk
    by_contra hOk
    rw [Bool.not_eq_false] at hOk
    have hg := (configRead_isOk_groups hOk).1 _ hlk
    have hka := keysAllowed_false hmem hk
    simp [asb.deserializeData, hka, Except.isOk, Except.toBool] at hg
  · intro entries gentries kv hlk hmem hk
    by_contra hOk
    rw [Bool.not_eq_false] at hOk
    have hg := (configRead_isOk_groups hOk).2.1 _ hlk
    have hka := keysAllowed_false hmem hk
    simp [asb.deserializeNetwork, hka, Except.isOk, Except.toBool] at hg
  · intro entries gentries kv hlk hmem hk
    by_contra hOk
    rw [Bool.not_eq_false] at hOk
    have hg := (configRead_isOk_groups hOk).2.2.1 _ hlk
    have hka := keysAllowed_false hmem hk
    simp [asb.deserializeBitcoin, hka, Except.isOk, Except.toBool] at hg
  · intro entries gentries kv hlk hmem hk
    by_contra hOk
    rw [Bool.not_eq_false] at hOk
    have hg := (configRead_isOk_groups hOk).2.2.2.1 _ hlk
    have hka := keysAllowed_false hmem hk
    simp [asb.deserializeMonero, hka, Except.isOk, Except.toBool] at hg
  · intro entries gentries kv hlk hmem hk
    by_contra hOk
    rw [Bool.not_eq_false] at hOk
    have hg := (configRead_isOk_groups hOk).2.2.2.2.1 _ hlk
    have hka := keysAllowed_false hmem hk
    simp [asb.deserializeTorConf, hka, Except.isOk, Except.toBool] at hg
  · intro entries gentries kv hlk hmem hk
    by_contra hOk
    rw [Bool.not_eq_false] at hOk
    have hg := (configRead_isOk_groups hOk).2.2.2.2.2 _ hlk
    have hka := keysAllowed_false hmem hk
    simp [asb.deserializeMaker, hka, Except.isOk, Except.toBool] at hg
  · intro entries k v hk
    have h1 : k ≠ "data" := by rintro rfl; exact hk (by simp [asb.topLevelGroups])
    have h2 : k ≠ "network" := by rintro rfl; exact hk (by simp [asb.topLevelGroups])
    have h3 : k ≠ "bitcoin" := by rintro rfl; exact hk (by simp [asb.topLevelGroups])
    have h4 : k ≠ "monero" := by rintro rfl; exact hk (by simp [asb.topLevelGroups])
    have h5 : k ≠ "tor" := by rintro rfl; exact hk (by simp [asb.topLevelGroups])
    have h6 : k ≠ "maker" := by rintro rfl; exact hk (by simp [asb.topLevelGroups])
    simp only [asb.Config.read, asb.deserializeConfig]
    rw [reqField_append_single h1, reqField_append_single h2,
      reqField_append_single h3, reqField_append_single h4,
      reqField_append_single h5, reqField_append_single h6]

/-- C8 amended witness: the maker-group conjunct applied to the concrete
file with the unknown `spread_typo` key, and the top-level conjunct applied
to the concrete valid file with a `surprise` key appended. -/
theorem C8_amended_unknown_keys_rejected_only_inside_groups_witness :
    (asb.Config.read (.table badMakerKeyEntries)).isOk = false ∧
    asb.Config.read (.table (goodConfigEntries ++ [("surprise", .int 1)])) =
      asb.Config.read (.table goodConfigEntries) :=
  ⟨C8_amended_unknown_keys_rejected_only_inside_groups.2.2.2.2.2.1
      badMakerKeyEntries
      [("spread_typo", .float ⟨2, 2⟩),
       ("min_buy_btc", .float ⟨2, 3⟩),
       ("max_buy_btc", .float ⟨2, 2⟩),
       ("ask_spread", .float ⟨2, 2⟩),
       ("price_ticker_ws_url", .str "wss://ws.kraken.com")]
      ("spread_typo", .float ⟨2, 2⟩) rfl (List.Mem.head _) rfl,
   C8_amended_unknown_keys_rejected_only_inside_groups.2.2.2.2.2.2
      goodConfigEntries "surprise" (.int 1) (by decide)⟩

/-- C9 counterexample: the testnet and mainnet default configurations do
*not* differ in their listen ports: both networks default to the identical
listen multiaddrs `/ip4/0.0.0.0/tcp/9939` and `/ip4/0.0.0.0/tcp/9940/ws`. -/
theorem C9_counterexample_listen_addresses_identical :
    (asb.Testnet.getConfigFileDefaults "/cfg" "/data").listen_address_tcp =
      (asb.Mainnet.getConfigFileDefaults "/cfg" "/data").listen_address_tcp ∧
    (asb.Testnet.getConfigFileDefaults "/cfg" "/data").listen_address_ws =
      (asb.Mainnet.getConfigFileDefaults "/cfg" "/data").listen_address_ws :=
  ⟨rfl, rfl⟩

/-- C9 (amended): the testnet and mainnet default configurations differ in
their RPC URLs (Electrum and Monero wallet RPC) and in their Bitcoin
confirmation target — testnet 1, mainnet 3 — while their listen addresses
(hence listen ports) are identical. -/
theorem C9_amended_default_configs_differ (c d : String) :
    ((asb.Testnet.getConfigFileDefaults c d).electrum_rpc_url ==
      (asb.Mainnet.getConfigFileDefaults c d).electrum_rpc_url) = false ∧
    ((asb.Testnet.getConfigFileDefaults c d).monero_wallet_rpc_url ==
      (asb.Mainnet.getConfigFileDefaults c d).monero_wallet_rpc_url) = false ∧
    (asb.Testnet.getConfigFileDefaults c d).bitcoin_confirmation_target = 1 ∧
    (asb.Mainnet.getConfigFileDefaults c d).bitcoin_confirmation_target = 3 ∧
    (asb.Testnet.getConfigFileDefaults c d).listen_address_tcp =
      (asb.Mainnet.getConfigFileDefaults c d).listen_address_tcp ∧
    (asb.Testnet.getConfigFileDefaults c d).listen_address_ws =
      (asb.Mainnet.getConfigFileDefaults c d).listen_address_ws := by
  refine ⟨?_, ?_, rfl, rfl, rfl, rfl⟩
  · show (("ssl://electrum.blockstream.info:60002" : String) ==
      "ssl://electrum.blockstream.info:50002") = false
    rfl
  · show (("http://127.0.0.1:38083/json_rpc" : String) ==
      "http://127.0.0.1:18083/json_rpc") = false
    rfl

/-- C10: the rendered `Display` text of a persisted `Alice` value depends
only on the variant tag (with the end-state tag for `Done`): two values of
the same variant render identically, so no payload — `State3`, spend key,
encrypted signature or restore blockheight — influences or appears in the
displayed output. -/
theorem C10_display_depends_only_on_variant_tag
    (a b : Alice) (h : a.tag = b.tag) : a.display = b.display := by
  cases a <;> cases b <;> simp_all [Alice.tag, Alice.display]

/-- C10 witness: two `EncSigLearned` values with entirely different
payloads share a tag and render identically. -/
theorem C10_display_depends_only_on_variant_tag_witness :
    (Alice.EncSigLearned ⟨1⟩ ⟨2⟩ defaultState3).tag =
      (Alice.EncSigLearned ⟨99⟩ ⟨98⟩
        ⟨0, 0, 0, 0, 0, 0, 0, 0, 0, 0, 0, 0, 0, 0⟩).tag ∧
    (Alice.EncSigLearned ⟨1⟩ ⟨2⟩ defaultState3).display =
      (Alice.EncSigLearned ⟨99⟩ ⟨98⟩
        ⟨0, 0, 0, 0, 0, 0, 0, 0, 0, 0, 0, 0, 0, 0⟩).display :=
  ⟨rfl,
   C10_display_depends_only_on_variant_tag
     (Alice.EncSigLearned ⟨1⟩ ⟨2⟩ defaultState3)
     (Alice.EncSigLearned ⟨99⟩ ⟨98⟩
       ⟨0, 0, 0, 0, 0, 0, 0, 0, 0, 0, 0, 0, 0, 0⟩) rfl⟩
